import Mathlib

/-!
# Execution-locking core of `keep/api/core/db.py`

A shallow embedding of the scheduler's locking and recovery protocol:
`create_workflow_execution` (lock acquisition), `get_last_completed_execution`,
`get_workflows_that_should_run` (due-workflow scan, inline timeout reclaim) and
`finish_workflow_execution` (completion recorder).

The durable store is modelled as an explicit value (`DB`): a list of
`WorkflowExecution` rows plus a list of `WorkflowToAlertExecution` link rows.
Timestamps are integer seconds on an injected clock `now : Int`; freshly
generated identifiers (`uuid4` in the source) are drawn from a `Nat` counter
threaded through every insert attempt (one identifier is consumed per attempt,
succeeding or not, as `uuid4()` is called before the constraint is checked).
`IntegrityError` raised by the store's uniqueness constraint becomes an
`Except` error value.
-/

namespace Keep

/-- The execution statuses appearing in the source
(`"in_progress"`, `"success"`, `"error"`, `"providers_not_configured"`, `"timeout"`). -/
inductive WStatus where
  | in_progress
  | success
  | error
  | providers_not_configured
  | timeout
deriving DecidableEq, Repr

/-- One row of the `workflowexecution` table, with the columns the core touches.
The column set is taken from the uses in `db.py` (`id`, `workflow_id`,
`tenant_id`, `execution_number`, `status`, `started`, `triggered_by`, `error`,
`execution_time`, `is_running`); the model module itself is not among the
sources. -/
structure WorkflowExecution where
  id : Nat
  workflow_id : String
  tenant_id : String
  execution_number : Nat
  status : WStatus
  started : Int
  triggered_by : String
  error : Option String := none
  execution_time : Option Int := none
  is_running : Option Nat := none
deriving DecidableEq, Repr

/-- Link row tying a workflow execution to the alert that triggered it
(`WorkflowToAlertExecution` in the source). -/
structure WorkflowToAlertExecution where
  workflow_execution_id : Nat
  alert_fingerprint : String
  event_id : Option String
deriving DecidableEq, Repr

/-- The columns of a workflow definition the scan reads:
`id`, `tenant_id`, `interval` (nullable seconds), `is_deleted`. -/
structure Workflow where
  id : String
  tenant_id : String
  interval : Option Int
  is_deleted : Bool
deriving DecidableEq, Repr

/-- The ledger state: execution rows plus execution-to-alert link rows. -/
structure DB where
  executions : List WorkflowExecution
  links : List WorkflowToAlertExecution
deriving DecidableEq, Repr

/-- The `IntegrityError` signalled by the store when the uniqueness
constraint rejects an insert; re-raised by `create_workflow_execution`. -/
inductive LockConflict where
  | integrityViolation
deriving DecidableEq, Repr

/-- The status disjunction in `get_last_completed_execution`
(`status == "success" | "error" | "providers_not_configured"`). -/
def isCompletedStatus : WStatus → Bool
  | .success => true
  | .error => true
  | .providers_not_configured => true
  | _ => false

/-- The spec's terminal statuses (invariant I3): everything but `in_progress`. -/
def isTerminalStatus : WStatus → Bool
  | .in_progress => false
  | _ => true

/-- Modelled from the spec: the uniqueness constraint over
(workflow identifier, execution sequence number) declared on the
`WorkflowExecution` table (the model module `keep/api/models/db/workflow.py`
is not among the sources). A pending insert violates the constraint exactly
when a row with the same pair already exists. -/
def hasSeq (l : List WorkflowExecution) (wid : String) (n : Nat) : Bool :=
  l.any (fun e => e.workflow_id == wid && e.execution_number == n)

/-- `triggered_by = triggered_by[:255] if len(triggered_by) > 255`. -/
def truncate255 (s : String) : String :=
  if s.length > 255 then s.take 255 else s

/-- `create_workflow_execution` (db.py:80-119): build a fresh row with the
given sequence number and status `in_progress`; when a fingerprint is supplied
(and truthy) also add the link row in the same transaction; commit. A
uniqueness-constraint violation aborts the transaction and the
`IntegrityError` is re-raised after a debug log. -/
def create_workflow_execution (db : DB) (workflow_id tenant_id triggered_by : String)
    (execution_number : Nat) (event_id fingerprint : Option String)
    (now : Int) (newId : Nat) : Except LockConflict (Nat × DB) :=
  if hasSeq db.executions workflow_id execution_number then
    Except.error LockConflict.integrityViolation
  else
    Except.ok (newId,
      { executions := db.executions ++
          [{ id := newId
             workflow_id := workflow_id
             tenant_id := tenant_id
             execution_number := execution_number
             status := WStatus.in_progress
             started := now
             triggered_by := truncate255 triggered_by }]
        links :=
          match fingerprint with
          | some fpv =>
              if fpv.isEmpty then db.links
              else db.links ++
                [{ workflow_execution_id := newId
                   alert_fingerprint := fpv
                   event_id := event_id }]
          | none => db.links })

/-- `ORDER BY execution_number DESC LIMIT 1 ... .first()`: the element with
the greatest `execution_number` (the first such element when duplicated). -/
def maxBySeq : List WorkflowExecution → Option WorkflowExecution
  | [] => none
  | e :: es =>
    match maxBySeq es with
    | none => some e
    | some m => if e.execution_number < m.execution_number then some m else some e

/-- `get_last_completed_execution` (db.py:134-147): among the workflow's rows
whose status is `success`, `error` or `providers_not_configured`, the one with
the greatest execution number. -/
def get_last_completed_execution (l : List WorkflowExecution) (workflow_id : String) :
    Option WorkflowExecution :=
  maxBySeq (l.filter (fun e => e.workflow_id == workflow_id && isCompletedStatus e.status))

/-- The re-read after a lock conflict (db.py:215-223): first row with the
given workflow identifier and execution number. -/
def findOngoing (l : List WorkflowExecution) (wid : String) (n : Nat) :
    Option WorkflowExecution :=
  l.find? (fun e => e.workflow_id == wid && e.execution_number == n)

/-- ORM-style update: mutate the first row satisfying `p` (the object a
`.first()` query returned), leave the rest untouched. -/
def updateFirst (l : List WorkflowExecution) (p : WorkflowExecution → Bool)
    (f : WorkflowExecution → WorkflowExecution) : List WorkflowExecution :=
  match l with
  | [] => []
  | e :: es => if p e then f e :: es else e :: updateFirst es p f

/-- `ongoing_execution.status = "timeout"; session.commit()` (db.py:236-237):
write `timeout` into the row the re-read returned, addressed by primary key. -/
def setOngoingTimeout (db : DB) (oid : Nat) : DB :=
  { db with executions := (updateFirst db.executions (fun e => e.id == oid)
      (fun e => { e with status := WStatus.timeout })) }

/-- One entry of `workflows_to_run`: the dict
`{tenant_id, workflow_id, workflow_execution_id}`. -/
structure RunEntry where
  tenant_id : String
  workflow_id : String
  workflow_execution_id : Nat
deriving DecidableEq, Repr

/-- The log calls inside the scan loop body that distinguish its branches:
the error-severity "WTF: ongoing execution not found" line, the debug line in
the timeout-reclaim conflict branch, and the debug "already running by someone
else" line of the not-due branch. -/
inductive LogEvent where
  | wtfOngoingMissing (workflow_id : String) (execution_number : Nat)
  | debugTimeoutConflict (workflow_id : String)
  | debugAlreadyRunning (workflow_id : String)
deriving DecidableEq, Repr

/-- Result of processing one workflow in the scan loop: entries appended to
`workflows_to_run`, log events emitted, the ledger after, and the identifier
counter after. -/
abbrev ScanStep := List RunEntry × List LogEvent × DB × Nat

/-- The timeout-reclaim block (db.py:236-259): write `timeout` into the stale
row, commit, then try to acquire the lock at its sequence number plus one; on
`IntegrityError` log at debug severity and skip, on success append the new
execution to this tick's result. -/
def reclaimTimeout (w : Workflow) (o : WorkflowExecution) (db : DB) (now : Int)
    (nextId : Nat) : ScanStep :=
  let db1 := setOngoingTimeout db o.id
  match create_workflow_execution db1 w.id w.tenant_id "scheduler"
      (o.execution_number + 1) none none now nextId with
  | Except.error _ => ([], [LogEvent.debugTimeoutConflict w.id], db1, nextId + 1)
  | Except.ok (eid, db2) => ([⟨w.tenant_id, w.id, eid⟩], [], db2, nextId + 1)

/-- The post-conflict fallback (db.py:214-259): re-read the row at the
contested sequence number, then the four-way branch of the source —
row missing (error log, skip), row terminal (skip), row `in_progress` for at
least 60 minutes (timeout reclaim), row `in_progress` and fresh (skip). -/
def conflictFallback (w : Workflow) (last : WorkflowExecution) (db : DB) (now : Int)
    (nextId : Nat) : ScanStep :=
  match findOngoing db.executions w.id (last.execution_number + 1) with
  | none =>
      ([], [LogEvent.wtfOngoingMissing w.id (last.execution_number + 1)], db, nextId)
  | some o =>
      if o.status ≠ WStatus.in_progress then ([], [], db, nextId)
      else if o.started + 60 * 60 ≤ now then reclaimTimeout w o db now nextId
      else ([], [], db, nextId)

/-- The never-run branch (db.py:167-184): acquire the lock with the default
execution number 1; on success append to the result, on `IntegrityError`
`continue`. -/
def firstAttempt (w : Workflow) (db : DB) (now : Int) (nextId : Nat) : ScanStep :=
  match create_workflow_execution db w.id w.tenant_id "scheduler" 1 none none
      now nextId with
  | Except.ok (eid, db') => ([⟨w.tenant_id, w.id, eid⟩], [], db', nextId + 1)
  | Except.error _ => ([], [], db, nextId + 1)

/-- The due branch (db.py:190-259): acquire the lock at the last completed
execution's number plus one; on success append to the result and `continue`,
on `IntegrityError` roll back and fall through to the re-read. -/
def incrementedAttempt (w : Workflow) (last : WorkflowExecution) (db : DB) (now : Int)
    (nextId : Nat) : ScanStep :=
  match create_workflow_execution db w.id w.tenant_id "scheduler"
      (last.execution_number + 1) none none now nextId with
  | Except.ok (eid, db') => ([⟨w.tenant_id, w.id, eid⟩], [], db', nextId + 1)
  | Except.error _ => conflictFallback w last db now (nextId + 1)

/-- The loop body of `get_workflows_that_should_run` (db.py:163-263) for one
workflow that passed the filter: branch on whether a last completed execution
exists and whether the interval has elapsed since it started. -/
def processWorkflow (w : Workflow) (db : DB) (now : Int) (nextId : Nat) : ScanStep :=
  match get_last_completed_execution db.executions w.id with
  | none => firstAttempt w db now nextId
  | some last =>
      if last.started + w.interval.getD 0 ≤ now then
        incrementedAttempt w last db now nextId
      else
        ([], [LogEvent.debugAlreadyRunning w.id], db, nextId)

/-- `get_workflows_that_should_run` (db.py:150-265): filter to non-deleted
workflows with a non-null positive interval, then run the loop body over each,
threading the ledger and the identifier counter and accumulating the result
list and the log. -/
def get_workflows_that_should_run (workflows : List Workflow) (db : DB) (now : Int)
    (id0 : Nat) : ScanStep :=
  let ws := workflows.filter (fun w =>
    !w.is_deleted &&
      (match w.interval with
       | some i => decide (0 < i)
       | none => false))
  ws.foldl
    (fun acc w =>
      match acc with
      | (rs, ls, dbAcc, nid) =>
        match processWorkflow w dbAcc now nid with
        | (rs', ls', db', nid') => (rs ++ rs', ls ++ ls', db', nid'))
    ([], [], db, id0)

/-- The lookup predicate of `finish_workflow_execution` (db.py:515-520):
same tenant, workflow and execution identifier. -/
def matchesTriple (tenant_id workflow_id : String) (execution_id : Nat)
    (e : WorkflowExecution) : Bool :=
  e.tenant_id == tenant_id && e.workflow_id == workflow_id && e.id == execution_id

/-- The field writes of `finish_workflow_execution` (db.py:522-530):
fresh `is_running` nonce, the given status, the error text truncated to 255
characters when truthy (`error[:255] if error else None`), and
`execution_time = now - started` in seconds. -/
def finishedRow (e : WorkflowExecution) (status : WStatus) (error : Option String)
    (now : Int) (rand : Nat) : WorkflowExecution :=
  { e with
      is_running := some rand
      status := status
      error :=
        match error with
        | some s => if s = "" then none else some (s.take 255)
        | none => none
      execution_time := some (now - e.started) }

/-- The fault raised when the lookup returned no row: the assignment
`workflow_execution.is_running = ...` dereferences `None` and an
`AttributeError` propagates out of the function. -/
inductive FinishFault where
  | attributeOnNone
deriving DecidableEq, Repr

/-- `finish_workflow_execution` (db.py:513-532): look the row up by
(tenant, workflow, execution identifier); if absent the first field assignment
faults before any commit; otherwise overwrite the row's fields unconditionally
(no terminality check appears in the source) and commit. -/
def finish_workflow_execution (db : DB) (tenant_id workflow_id : String)
    (execution_id : Nat) (status : WStatus) (error : Option String)
    (now : Int) (rand : Nat) : Except FinishFault DB :=
  match db.executions.find? (matchesTriple tenant_id workflow_id execution_id) with
  | none => Except.error FinishFault.attributeOnNone
  | some _ =>
      Except.ok { db with executions := (updateFirst db.executions
        (matchesTriple tenant_id workflow_id execution_id)
        (fun e => finishedRow e status error now rand)) }

/-- Operational wrapper: an exception escaping `finish_workflow_execution`
closes the session without a commit, so the ledger is left as it was. -/
def runFinish (db : DB) (tenant_id workflow_id : String) (execution_id : Nat)
    (status : WStatus) (error : Option String) (now : Int) (rand : Nat) : DB :=
  match finish_workflow_execution db tenant_id workflow_id execution_id status error
      now rand with
  | Except.ok db' => db'
  | Except.error _ => db

/-! ## Concrete sample data

Small ledgers used to exercise the theorems below on explicit inputs. -/

/-- A workflow with a five-minute-sixth interval (10 s), not deleted. -/
def wfSample : Workflow :=
  { id := "wf", tenant_id := "t", interval := some 10, is_deleted := false }

/-- A completed execution at sequence number 1. -/
def exDone1 : WorkflowExecution :=
  { id := 1, workflow_id := "wf", tenant_id := "t", execution_number := 1,
    status := WStatus.success, started := 0, triggered_by := "scheduler" }

/-- An execution still `in_progress` at sequence number 2, started at 50 s. -/
def exOngoing2 : WorkflowExecution :=
  { id := 2, workflow_id := "wf", tenant_id := "t", execution_number := 2,
    status := WStatus.in_progress, started := 50, triggered_by := "scheduler" }

/-- Ledger holding only the completed execution. -/
def dbOne : DB := ⟨[exDone1], []⟩

/-- Ledger holding the completed execution and the ongoing one. -/
def dbTwo : DB := ⟨[exDone1, exOngoing2], []⟩

/-- A workflow with a 300 s interval, for the due-boundary check. -/
def wf300 : Workflow :=
  { id := "wb", tenant_id := "t", interval := some 300, is_deleted := false }

/-- A completed execution started at 700 s, so due exactly from 1000 s on. -/
def exDone300 : WorkflowExecution :=
  { id := 3, workflow_id := "wb", tenant_id := "t", execution_number := 4,
    status := WStatus.error, started := 700, triggered_by := "scheduler" }

/-- Ledger for the due-boundary check. -/
def db300 : DB := ⟨[exDone300], []⟩

/-- Sequence number 1 but the later start (100 s). -/
def exSeq1Late : WorkflowExecution :=
  { id := 4, workflow_id := "wf", tenant_id := "t", execution_number := 1,
    status := WStatus.success, started := 100, triggered_by := "scheduler" }

/-- Sequence number 2 but the earlier start (50 s). -/
def exSeq2Early : WorkflowExecution :=
  { id := 5, workflow_id := "wf", tenant_id := "t", execution_number := 2,
    status := WStatus.success, started := 50, triggered_by := "scheduler" }

/-- A workflow whose only completed execution is far older than 7 days. -/
def wf7 : Workflow :=
  { id := "wf7", tenant_id := "t7", interval := some 300, is_deleted := false }

/-- Completed at sequence number 5, started 691200 s (8 days) before 1000000. -/
def exOld5 : WorkflowExecution :=
  { id := 6, workflow_id := "wf7", tenant_id := "t7", execution_number := 5,
    status := WStatus.success, started := 308800, triggered_by := "scheduler" }

/-- Ledger holding only the 8-day-old completed execution. -/
def db7 : DB := ⟨[exOld5], []⟩

/-- The row the scan inserts for `wf7` at tick 1000000 with counter 10. -/
def exNew6 : WorkflowExecution :=
  { id := 10, workflow_id := "wf7", tenant_id := "t7", execution_number := 6,
    status := WStatus.in_progress, started := 1000000, triggered_by := "scheduler" }

/-! ## Helper lemmas -/

theorem hasSeq_iff (l : List WorkflowExecution) (wid : String) (n : Nat) :
    hasSeq l wid n = true ↔ ∃ e ∈ l, e.workflow_id = wid ∧ e.execution_number = n := by
  simp [hasSeq, List.any_eq_true, Bool.and_eq_true, beq_iff_eq]

theorem updateFirst_mem_of_find? (l : List WorkflowExecution)
    (p : WorkflowExecution → Bool) (f : WorkflowExecution → WorkflowExecution)
    (e : WorkflowExecution) (h : l.find? p = some e) : f e ∈ updateFirst l p f := by
  induction l with
  | nil => simp at h
  | cons x xs ih =>
    cases hx : p x with
    | true =>
      rw [List.find?_cons_of_pos _ hx] at h
      injection h with h2
      subst h2
      simp [updateFirst, hx]
    | false =>
      rw [List.find?_cons_of_neg _ (by simp [hx])] at h
      simp only [updateFirst, hx, Bool.false_eq_true, if_false]
      exact List.mem_cons_of_mem _ (ih h)

theorem maxBySeq_ne_none (e : WorkflowExecution) (es : List WorkflowExecution) :
    maxBySeq (e :: es) ≠ none := by
  intro h
  simp only [maxBySeq] at h
  cases hm : maxBySeq es with
  | none =>
    simp only [hm] at h
    exact Option.noConfusion h
  | some m' =>
    simp only [hm] at h
    by_cases hlt : e.execution_number < m'.execution_number
    · rw [if_pos hlt] at h
      exact Option.noConfusion h
    · rw [if_neg hlt] at h
      exact Option.noConfusion h

theorem maxBySeq_mem : ∀ (l : List WorkflowExecution) (m : WorkflowExecution),
    maxBySeq l = some m → m ∈ l := by
  intro l
  induction l with
  | nil => intro m h; simp [maxBySeq] at h
  | cons e es ih =>
    intro m h
    simp only [maxBySeq] at h
    cases hm : maxBySeq es with
    | none =>
      simp only [hm] at h
      injection h with h2
      subst h2
      exact List.mem_cons_self _ _
    | some m' =>
      simp only [hm] at h
      by_cases hlt : e.execution_number < m'.execution_number
      · rw [if_pos hlt] at h
        injection h with h2
        subst h2
        exact List.mem_cons_of_mem _ (ih _ hm)
      · rw [if_neg hlt] at h
        injection h with h2
        subst h2
        exact List.mem_cons_self _ _

theorem maxBySeq_ge : ∀ (l : List WorkflowExecution) (m : WorkflowExecution),
    maxBySeq l = some m → ∀ x ∈ l, x.execution_number ≤ m.execution_number := by
  intro l
  induction l with
  | nil => intro m _ x hx; simp at hx
  | cons e es ih =>
    intro m h x hx
    simp only [maxBySeq] at h
    cases hm : maxBySeq es with
    | none =>
      simp only [hm] at h
      injection h with h2
      subst h2
      rcases List.mem_cons.mp hx with rfl | hxs
      · exact Nat.le_refl _
      · cases es with
        | nil => simp at hxs
        | cons y ys => exact absurd hm (maxBySeq_ne_none _ _)
    | some m' =>
      simp only [hm] at h
      by_cases hlt : e.execution_number < m'.execution_number
      · rw [if_pos hlt] at h
        injection h with h2
        subst h2
        rcases List.mem_cons.mp hx with rfl | hxs
        · exact Nat.le_of_lt hlt
        · exact ih _ hm x hxs
      · rw [if_neg hlt] at h
        injection h with h2
        subst h2
        rcases List.mem_cons.mp hx with rfl | hxs
        · exact Nat.le_refl _
        · exact Nat.le_trans (ih _ hm x hxs) (Nat.le_of_not_lt hlt)

/-! ## Claim theorems -/

/-- C1: for every call to `create_workflow_execution`, either a new row with
the given sequence number and status `in_progress` is appended and the new
identifier is returned, or — exactly when a row with the same
(workflow identifier, execution sequence number) pair already exists, so the
uniqueness constraint rejects the insert — the lock conflict is signalled and
no row is created. -/
theorem lock_acquisition_insert_or_conflict (db : DB) (wid tid tb : String)
    (n : Nat) (ev fp : Option String) (now : Int) (newId : Nat) :
    (hasSeq db.executions wid n = false →
      ∃ db', create_workflow_execution db wid tid tb n ev fp now newId =
          Except.ok (newId, db') ∧
        ∃ e, db'.executions = db.executions ++ [e] ∧ e.workflow_id = wid ∧
          e.execution_number = n ∧ e.status = WStatus.in_progress ∧ e.id = newId) ∧
    (hasSeq db.executions wid n = true →
      create_workflow_execution db wid tid tb n ev fp now newId =
        Except.error LockConflict.integrityViolation) ∧
    (hasSeq db.executions wid n = true ↔
      ∃ e ∈ db.executions, e.workflow_id = wid ∧ e.execution_number = n) := by
  refine ⟨?_, ?_, hasSeq_iff _ _ _⟩
  · intro h
    simp only [create_workflow_execution, h, Bool.false_eq_true, if_false]
    exact ⟨_, rfl, _, rfl, rfl, rfl, rfl, rfl⟩
  · intro h
    simp only [create_workflow_execution, h, if_true]

/-- C1 witness: on the empty ledger the insert at sequence number 1 commits;
on a ledger already holding (wf, 1) the same call conflicts. -/
theorem lock_acquisition_insert_or_conflict_witness :
    (∃ db', create_workflow_execution (DB.mk [] []) "wf" "t" "scheduler" 1 none none
        99 8 = Except.ok (8, db') ∧
      ∃ e, db'.executions = (DB.mk [] []).executions ++ [e] ∧ e.workflow_id = "wf" ∧
        e.execution_number = 1 ∧ e.status = WStatus.in_progress ∧ e.id = 8) ∧
    create_workflow_execution dbOne "wf" "t" "scheduler" 1 none none 99 8 =
      Except.error LockConflict.integrityViolation :=
  ⟨(lock_acquisition_insert_or_conflict (DB.mk [] []) "wf" "t" "scheduler" 1 none none
      99 8).1 rfl,
   (lock_acquisition_insert_or_conflict dbOne "wf" "t" "scheduler" 1 none none
      99 8).2.1 (by decide)⟩

/-- C9: on an existing execution matching the (tenant, workflow, identifier)
triple, the completion recorder commits the row with the given status, the
error text truncated to 255 characters when a non-empty text is given (null
when absent), and `execution_time = now - started` in seconds. -/
theorem finish_fields_spec (db : DB) (t wf : String) (eid : Nat) (st : WStatus)
    (err : Option String) (now : Int) (rand : Nat) (e : WorkflowExecution)
    (hfind : db.executions.find? (matchesTriple t wf eid) = some e) :
    ∃ db', finish_workflow_execution db t wf eid st err now rand = Except.ok db' ∧
      finishedRow e st err now rand ∈ db'.executions ∧
      (finishedRow e st err now rand).status = st ∧
      (err = none → (finishedRow e st err now rand).error = none) ∧
      (∀ s, err = some s → s ≠ "" →
        (finishedRow e st err now rand).error = some (s.take 255)) ∧
      (finishedRow e st err now rand).execution_time = some (now - e.started) := by
  refine ⟨⟨updateFirst db.executions (matchesTriple t wf eid)
      (fun x => finishedRow x st err now rand), db.links⟩, ?_, ?_, rfl, ?_, ?_, rfl⟩
  · simp only [finish_workflow_execution, hfind]
  · exact updateFirst_mem_of_find? _ _ _ _ hfind
  · rintro rfl
    rfl
  · rintro s rfl hs
    show (if s = "" then none else some (s.take 255)) = some (s.take 255)
    rw [if_neg hs]

/-- C9 witness: completing the sample execution with status `error` and text
"boom" at time 55. -/
theorem finish_fields_spec_witness :
    ∃ db', finish_workflow_execution dbOne "t" "wf" 1 WStatus.error (some "boom")
        55 9 = Except.ok db' ∧
      finishedRow exDone1 WStatus.error (some "boom") 55 9 ∈ db'.executions ∧
      (finishedRow exDone1 WStatus.error (some "boom") 55 9).status = WStatus.error ∧
      ((some "boom" : Option String) = none →
        (finishedRow exDone1 WStatus.error (some "boom") 55 9).error = none) ∧
      (∀ s, (some "boom" : Option String) = some s → s ≠ "" →
        (finishedRow exDone1 WStatus.error (some "boom") 55 9).error =
          some (s.take 255)) ∧
      (finishedRow exDone1 WStatus.error (some "boom") 55 9).execution_time =
        some (55 - exDone1.started) :=
  finish_fields_spec dbOne "t" "wf" 1 WStatus.error (some "boom") 55 9 exDone1
    (by decide)

/-- C10: when no row matches the (tenant, workflow, execution identifier)
triple, the lookup yields no row, the field assignment dereferences a missing
value, the call fails with that fault (no dedicated misuse signal exists), and
the ledger is unchanged. -/
theorem finish_missing_row_fault (db : DB) (t wf : String) (eid : Nat)
    (st : WStatus) (err : Option String) (now : Int) (rand : Nat)
    (hnone : db.executions.find? (matchesTriple t wf eid) = none) :
    finish_workflow_execution db t wf eid st err now rand =
      Except.error FinishFault.attributeOnNone ∧
    runFinish db t wf eid st err now rand = db := by
  have h1 : finish_workflow_execution db t wf eid st err now rand =
      Except.error FinishFault.attributeOnNone := by
    simp only [finish_workflow_execution, hnone]
  exact ⟨h1, by simp only [runFinish, h1]⟩

/-- C10 witness: completing a nonexistent execution identifier faults and
leaves the sample ledger unchanged. -/
theorem finish_missing_row_fault_witness :
    finish_workflow_execution dbOne "t" "wf" 99 WStatus.success none 0 0 =
      Except.error FinishFault.attributeOnNone ∧
    runFinish dbOne "t" "wf" 99 WStatus.success none 0 0 = dbOne :=
  finish_missing_row_fault dbOne "t" "wf" 99 WStatus.success none 0 0 (by decide)

/-- C5 counterexample: completing an execution that is already terminal
(`success`) is not rejected — the call commits and the terminal row's status
is overwritten. -/
theorem finish_terminal_not_rejected_cex :
    isTerminalStatus exDone1.status = true ∧
    finish_workflow_execution dbOne "t" "wf" 1 WStatus.error (some "late") 55 9 =
      Except.ok ⟨[finishedRow exDone1 WStatus.error (some "late") 55 9], []⟩ ∧
    (finishedRow exDone1 WStatus.error (some "late") 55 9).status ≠
      exDone1.status := by
  refine ⟨by decide, ?_, by decide⟩
  rfl

/-- C5 (amended): calling the completion recorder on an already-terminal
execution is not rejected — there is no terminality check, and the terminal
row is overwritten again with the newly given status. -/
theorem finish_overwrites_terminal (db : DB) (t wf : String) (eid : Nat)
    (st : WStatus) (err : Option String) (now : Int) (rand : Nat)
    (e : WorkflowExecution)
    (hfind : db.executions.find? (matchesTriple t wf eid) = some e)
    (_hterm : isTerminalStatus e.status = true) :
    ∃ db', finish_workflow_execution db t wf eid st err now rand = Except.ok db' ∧
      finishedRow e st err now rand ∈ db'.executions ∧
      (finishedRow e st err now rand).status = st := by
  refine ⟨⟨updateFirst db.executions (matchesTriple t wf eid)
      (fun x => finishedRow x st err now rand), db.links⟩, ?_, ?_, rfl⟩
  · simp only [finish_workflow_execution, hfind]
  · exact updateFirst_mem_of_find? _ _ _ _ hfind

/-- C5 witness: overwriting the terminal sample row with status `timeout`. -/
theorem finish_overwrites_terminal_witness :
    ∃ db', finish_workflow_execution dbOne "t" "wf" 1 WStatus.timeout none 60 3 =
        Except.ok db' ∧
      finishedRow exDone1 WStatus.timeout none 60 3 ∈ db'.executions ∧
      (finishedRow exDone1 WStatus.timeout none 60 3).status = WStatus.timeout :=
  finish_overwrites_terminal dbOne "t" "wf" 1 WStatus.timeout none 60 3 exDone1
    (by decide) (by decide)

/-- C6 counterexample: with a completed row at sequence number 1 started at
100 s and a completed row at sequence number 2 started at 50 s, the selection
returns the sequence-2 row even though the sequence-1 row started later — the
selection is not "most recently started". -/
theorem last_completed_not_latest_started_cex :
    get_last_completed_execution [exSeq1Late, exSeq2Early] "wf" = some exSeq2Early ∧
    exSeq1Late ∈ [exSeq1Late, exSeq2Early] ∧
    exSeq1Late.workflow_id = "wf" ∧
    isCompletedStatus exSeq1Late.status = true ∧
    exSeq2Early.started < exSeq1Late.started := by
  decide

/-- C6 (amended): the "last completed" execution is selected only among the
workflow's rows with status `success`, `error` or `providers_not_configured`,
and among those it is the one with the greatest execution sequence number. -/
theorem last_completed_max_seq (l : List WorkflowExecution) (wid : String)
    (e : WorkflowExecution)
    (h : get_last_completed_execution l wid = some e) :
    e ∈ l ∧ e.workflow_id = wid ∧ isCompletedStatus e.status = true ∧
    ∀ x ∈ l, x.workflow_id = wid → isCompletedStatus x.status = true →
      x.execution_number ≤ e.execution_number := by
  unfold get_last_completed_execution at h
  have hmem := maxBySeq_mem _ _ h
  have hge := maxBySeq_ge _ _ h
  rw [List.mem_filter] at hmem
  obtain ⟨hel, hp⟩ := hmem
  rw [Bool.and_eq_true, beq_iff_eq] at hp
  refine ⟨hel, hp.1, hp.2, ?_⟩
  intro x hx hwid hcs
  exact hge x (List.mem_filter.mpr ⟨hx, by
    rw [Bool.and_eq_true, beq_iff_eq]; exact ⟨hwid, hcs⟩⟩)

/-- C6 witness: on the two-row sample ledger the selected row is the
sequence-2 row, a member of the ledger, completed, for workflow "wf". -/
theorem last_completed_max_seq_witness :
    exSeq2Early ∈ [exSeq1Late, exSeq2Early] ∧
    exSeq2Early.workflow_id = "wf" ∧
    isCompletedStatus exSeq2Early.status = true :=
  (fun h => ⟨h.1, h.2.1, h.2.2.1⟩)
    (last_completed_max_seq [exSeq1Late, exSeq2Early] "wf" exSeq2Early (by decide))

/-- C4: with a last completed execution present, the workflow is due exactly
when `last.started + interval ≤ now` (inclusive boundary; otherwise the loop
only logs and moves on), and when due the scan attempts acquisition at
sequence number `last.execution_number + 1`. -/
theorem due_boundary_inclusive (w : Workflow) (i : Int) (l : WorkflowExecution)
    (db : DB) (now : Int) (nid : Nat)
    (hw : w.interval = some i)
    (hlast : get_last_completed_execution db.executions w.id = some l) :
    (now < l.started + i →
      processWorkflow w db now nid =
        ([], [LogEvent.debugAlreadyRunning w.id], db, nid)) ∧
    (l.started + i ≤ now →
      processWorkflow w db now nid = incrementedAttempt w l db now nid) ∧
    (l.started + i ≤ now →
      hasSeq db.executions w.id (l.execution_number + 1) = false →
      ∃ e, incrementedAttempt w l db now nid =
          ([⟨w.tenant_id, w.id, nid⟩], [], ⟨db.executions ++ [e], db.links⟩, nid + 1) ∧
        e.execution_number = l.execution_number + 1 ∧
        e.status = WStatus.in_progress) := by
  refine ⟨?_, ?_, ?_⟩
  · intro hlt
    simp only [processWorkflow, hlast, hw, Option.getD_some]
    rw [if_neg (not_le.mpr hlt)]
  · intro hdue
    simp only [processWorkflow, hlast, hw, Option.getD_some]
    rw [if_pos hdue]
  · intro _ hfree
    simp only [incrementedAttempt, create_workflow_execution, hfree,
      Bool.false_eq_true, if_false]
    exact ⟨_, rfl, rfl, rfl⟩

/-- C4 witness: with interval 300 and `last.started = 700`, the tick at 999
(299 s later) is not due, the tick at 1000 (300 s later) is due. -/
theorem due_boundary_inclusive_witness :
    processWorkflow wf300 db300 999 7 =
      ([], [LogEvent.debugAlreadyRunning "wb"], db300, 7) ∧
    processWorkflow wf300 db300 1000 7 = incrementedAttempt wf300 exDone300 db300
      1000 7 :=
  ⟨(due_boundary_inclusive wf300 300 exDone300 db300 999 7 rfl (by decide)).1
      (by decide),
   (due_boundary_inclusive wf300 300 exDone300 db300 1000 7 rfl (by decide)).2.1
      (by decide)⟩

/-- C2: when acquisition at `last.execution_number + 1` conflicts, the loop
falls through to a re-read of the ledger at that sequence number and decides
among four cases — row absent: log the internal inconsistency and skip with no
row created; row terminal: skip with no action; row `in_progress` and fresh:
skip; row `in_progress` and at least the 60-minute staleness threshold old:
hand off to the timeout reclaimer. -/
theorem scan_conflict_four_cases (w : Workflow) (i : Int) (l : WorkflowExecution)
    (db : DB) (now : Int) (nid : Nat)
    (hw : w.interval = some i)
    (hlast : get_last_completed_execution db.executions w.id = some l)
    (hdue : l.started + i ≤ now)
    (hconf : hasSeq db.executions w.id (l.execution_number + 1) = true) :
    processWorkflow w db now nid = conflictFallback w l db now (nid + 1) ∧
    ∀ (db2 : DB) (nid2 : Nat),
      (findOngoing db2.executions w.id (l.execution_number + 1) = none →
        conflictFallback w l db2 now nid2 =
          ([], [LogEvent.wtfOngoingMissing w.id (l.execution_number + 1)],
            db2, nid2)) ∧
      (∀ o, findOngoing db2.executions w.id (l.execution_number + 1) = some o →
        (o.status ≠ WStatus.in_progress →
          conflictFallback w l db2 now nid2 = ([], [], db2, nid2)) ∧
        (o.status = WStatus.in_progress → now < o.started + 60 * 60 →
          conflictFallback w l db2 now nid2 = ([], [], db2, nid2)) ∧
        (o.status = WStatus.in_progress → o.started + 60 * 60 ≤ now →
          conflictFallback w l db2 now nid2 = reclaimTimeout w o db2 now nid2)) := by
  constructor
  · simp only [processWorkflow, hlast, hw, Option.getD_some]
    rw [if_pos hdue]
    simp only [incrementedAttempt, create_workflow_execution, hconf, if_true]
  · intro db2 nid2
    refine ⟨?_, ?_⟩
    · intro hno
      simp only [conflictFallback, hno]
    · intro o ho
      refine ⟨?_, ?_, ?_⟩
      · intro hne
        simp only [conflictFallback, ho]
        rw [if_pos hne]
      · intro hst hfresh
        simp only [conflictFallback, ho]
        rw [if_neg (by simp [hst]), if_neg (not_le.mpr hfresh)]
      · intro hst hstale
        simp only [conflictFallback, ho]
        rw [if_neg (by simp [hst]), if_pos hstale]

/-- C2 witness: on the two-row sample ledger the conflict at sequence
number 2 sends the tick into the fallback. -/
theorem scan_conflict_four_cases_witness :
    processWorkflow wfSample dbTwo 100 7 =
      conflictFallback wfSample exDone1 dbTwo 100 8 :=
  (scan_conflict_four_cases wfSample 10 exDone1 dbTwo 100 7 rfl (by decide)
    (by decide) (by decide)).1

/-- C3: the timeout reclaimer first writes `timeout` into the stale row, then
attempts acquisition at its sequence number plus one on the updated ledger; a
conflict skips with only a debug trace, a success adds the fresh execution to
this tick's dispatched set. -/
theorem timeout_reclaimer_spec (w : Workflow) (o : WorkflowExecution) (db : DB)
    (now : Int) (nid : Nat)
    (_hst : o.status = WStatus.in_progress)
    (_hstale : o.started + 60 * 60 ≤ now)
    (hfind : db.executions.find? (fun e => e.id == o.id) = some o) :
    ({ o with status := WStatus.timeout } ∈ (setOngoingTimeout db o.id).executions) ∧
    (hasSeq (setOngoingTimeout db o.id).executions w.id (o.execution_number + 1) =
        true →
      reclaimTimeout w o db now nid =
        ([], [LogEvent.debugTimeoutConflict w.id], setOngoingTimeout db o.id,
          nid + 1)) ∧
    (hasSeq (setOngoingTimeout db o.id).executions w.id (o.execution_number + 1) =
        false →
      ∃ e, reclaimTimeout w o db now nid =
          ([⟨w.tenant_id, w.id, nid⟩], [],
            ⟨(setOngoingTimeout db o.id).executions ++ [e],
              (setOngoingTimeout db o.id).links⟩, nid + 1) ∧
        e.execution_number = o.execution_number + 1 ∧
        e.status = WStatus.in_progress ∧ e.id = nid) := by
  refine ⟨?_, ?_, ?_⟩
  · exact updateFirst_mem_of_find? _ _ _ _ hfind
  · intro h
    simp only [reclaimTimeout, create_workflow_execution, h, if_true]
  · intro h
    simp only [reclaimTimeout, create_workflow_execution, h, Bool.false_eq_true,
      if_false]
    exact ⟨_, rfl, rfl, rfl, rfl⟩

/-- C3 witness: at tick 5000 the sample ongoing row (started 50) is stale;
its row is marked `timeout` and the acquisition at sequence number 3 on the
updated sample ledger succeeds. -/
theorem timeout_reclaimer_spec_witness :
    ({ exOngoing2 with status := WStatus.timeout } ∈
      (setOngoingTimeout dbTwo exOngoing2.id).executions) ∧
    ∃ e, reclaimTimeout wfSample exOngoing2 dbTwo 5000 8 =
        ([⟨"t", "wf", 8⟩], [],
          ⟨(setOngoingTimeout dbTwo exOngoing2.id).executions ++ [e],
            (setOngoingTimeout dbTwo exOngoing2.id).links⟩, 9) ∧
      e.execution_number = exOngoing2.execution_number + 1 ∧
      e.status = WStatus.in_progress ∧ e.id = 8 :=
  (fun h => ⟨h.1, h.2.2 (by decide)⟩)
    (timeout_reclaimer_spec wfSample exOngoing2 dbTwo 5000 8 (by decide) (by decide)
      (by decide))

/-- C7 counterexample: the only completed execution of `wf7` started 8 days
(more than the alleged 7-day window) before the tick at 1000000, yet it is
still returned as "last completed" and the scan acquires at sequence number 6
(= 5 + 1), not at sequence number 1 as a never-run workflow would. -/
theorem no_lookback_window_cex :
    ((1000000 : Int) - exOld5.started > 7 * 86400) ∧
    get_last_completed_execution db7.executions "wf7" = some exOld5 ∧
    processWorkflow wf7 db7 1000000 10 =
      ([⟨"t7", "wf7", 10⟩], [], ⟨[exOld5, exNew6], []⟩, 11) ∧
    exNew6.execution_number = 6 ∧ exNew6.execution_number ≠ 1 := by
  decide

/-- C7 (amended): no lookback window applies — a completed execution of any
age, in particular one older than 7 days, still counts as "last completed",
the interval having long elapsed the workflow is due, and the scan acquires at
`last.execution_number + 1` rather than treating the workflow as never-run. -/
theorem no_lookback_window (w : Workflow) (i : Int) (l : WorkflowExecution)
    (db : DB) (now : Int) (nid : Nat)
    (hw : w.interval = some i)
    (hlast : get_last_completed_execution db.executions w.id = some l)
    (hold : now - l.started > 7 * 86400)
    (hi : i ≤ 7 * 86400) :
    processWorkflow w db now nid = incrementedAttempt w l db now nid ∧
    (hasSeq db.executions w.id (l.execution_number + 1) = false →
      ∃ e, incrementedAttempt w l db now nid =
          ([⟨w.tenant_id, w.id, nid⟩], [], ⟨db.executions ++ [e], db.links⟩, nid + 1) ∧
        e.execution_number = l.execution_number + 1) := by
  have hdue : l.started + i ≤ now := by omega
  constructor
  · simp only [processWorkflow, hlast, hw, Option.getD_some]
    rw [if_pos hdue]
  · intro hfree
    simp only [incrementedAttempt, create_workflow_execution, hfree,
      Bool.false_eq_true, if_false]
    exact ⟨_, rfl, rfl⟩

/-- C7 witness: the 8-day-old sample instance goes down the incremented
branch. -/
theorem no_lookback_window_witness :
    processWorkflow wf7 db7 1000000 10 =
      incrementedAttempt wf7 exOld5 db7 1000000 10 :=
  (no_lookback_window wf7 300 exOld5 db7 1000000 10 rfl (by decide) (by decide)
    (by decide)).1

/-- C8: a non-deleted workflow with a positive interval and no completed
execution is due immediately: the scan goes down the first-run branch,
acquiring at sequence number 1 with triggered_by "scheduler"; on success the
(tenant, workflow, execution identifier) entry is in the tick's result, on a
conflict the workflow is skipped with nothing else done. -/
theorem first_run_acquires_seq_one (w : Workflow) (i : Int) (db : DB) (now : Int)
    (nid : Nat)
    (hdel : w.is_deleted = false)
    (hint : w.interval = some i)
    (hpos : 0 < i)
    (hlast : get_last_completed_execution db.executions w.id = none) :
    get_workflows_that_should_run [w] db now nid = processWorkflow w db now nid ∧
    processWorkflow w db now nid = firstAttempt w db now nid ∧
    (hasSeq db.executions w.id 1 = false →
      ∃ e, firstAttempt w db now nid =
          ([⟨w.tenant_id, w.id, nid⟩], [], ⟨db.executions ++ [e], db.links⟩, nid + 1) ∧
        e.execution_number = 1 ∧ e.status = WStatus.in_progress ∧
        e.triggered_by = "scheduler" ∧ e.id = nid) ∧
    (hasSeq db.executions w.id 1 = true →
      firstAttempt w db now nid = ([], [], db, nid + 1)) := by
  refine ⟨?_, ?_, ?_, ?_⟩
  · rcases hpw : processWorkflow w db now nid with ⟨rs, ls, db2, nid2⟩
    simp [get_workflows_that_should_run, hdel, hint, hpos, hpw]
  · simp only [processWorkflow, hlast]
  · intro hfree
    simp only [firstAttempt, create_workflow_execution, hfree, Bool.false_eq_true,
      if_false]
    exact ⟨_, rfl, rfl, rfl, rfl, rfl⟩
  · intro hocc
    simp only [firstAttempt, create_workflow_execution, hocc, if_true]

/-- C8 witness: on the empty ledger the sample workflow goes down the
first-run branch of the tick. -/
theorem first_run_acquires_seq_one_witness :
    get_workflows_that_should_run [wfSample] (DB.mk [] []) 0 5 =
      processWorkflow wfSample (DB.mk [] []) 0 5 ∧
    processWorkflow wfSample (DB.mk [] []) 0 5 =
      firstAttempt wfSample (DB.mk [] []) 0 5 :=
  (fun h => ⟨h.1, h.2.1⟩)
    (first_run_acquires_seq_one wfSample 10 (DB.mk [] []) 0 5 rfl rfl (by decide) rfl)

end Keep
